import Mathlib

/-!
Shallow embedding of the connection-pool and client-timeout logic of the
snowflake-mcp-server repository.

* `ConnectionPool` (src/utils/connection-pool.ts): configuration defaulting in
  the constructor, `acquire`, `release`, `processWaitingQueue`, the
  `waitForConnection` timeout callback, `shutdown` and
  `cleanupIdleConnections`.
* `SnowflakeClient.execute` (src/clients/snowflake-client.ts): the
  `Promise.race` of the query against `createTimeoutPromise`.

Modelling conventions:
* JS `Map` values iterate in insertion order; the connection map is a
  `List PooledConnection`, `Map.set` of a fresh key is `++ [c]`,
  `Map.delete` is a filter.
* A `SnowflakeClient` object is identified by the `id : Nat` of its pooled
  wrapper (each `createConnection` builds a fresh client, so client identity
  and connection id are in bijection); ids handed to the model are fresh.
* Timestamps and configured durations are `Int` (JS numbers at integral
  values); `Date.now()` is passed in as `now`.
* The outcome of `client.connect()` inside `createConnection` is an
  environment parameter `connectOk`; `client.disconnect()` is modelled as
  succeeding.
* Thrown `Error`s are modelled by `PoolError` constructors carrying the data
  interpolated into the message.
-/

namespace SnowflakeMCP

/-- Errors thrown by the pool.
`poolShuttingDown` is `Error("Connection pool is shutting down")`;
`acquireTimeout ms` is ``Error(`Connection acquire timeout after ${ms}ms`)``;
`creationFailed` is the error propagated out of `client.connect()`. -/
inductive PoolError where
  | poolShuttingDown : PoolError
  | acquireTimeout (ms : Int) : PoolError
  | creationFailed : PoolError
  deriving DecidableEq, Repr

/-- `ConnectionPoolConfig` from src/utils/connection-pool.ts. -/
structure ConnectionPoolConfig where
  maxConnections : Int
  minConnections : Int
  connectionTimeout : Int
  idleTimeout : Int
  acquireTimeout : Int
  deriving DecidableEq, Repr

/-- `Partial<ConnectionPoolConfig>`: every field may be absent. -/
structure PartialPoolConfig where
  maxConnections : Option Int
  minConnections : Option Int
  connectionTimeout : Option Int
  idleTimeout : Option Int
  acquireTimeout : Option Int
  deriving DecidableEq, Repr

/-- JS `v || d` on numbers: an absent field or the falsy value `0` falls back
to the default `d`. -/
def jsOr (v : Option Int) (d : Int) : Int :=
  match v with
  | none => d
  | some x => if x = 0 then d else x

/-- The `poolConfig` object built by the `ConnectionPool` constructor:
each field is `given || default`, with no further validation. -/
def mkPoolConfig (p : PartialPoolConfig) : ConnectionPoolConfig :=
  { maxConnections := jsOr p.maxConnections 10
    minConnections := jsOr p.minConnections 2
    connectionTimeout := jsOr p.connectionTimeout 30000
    idleTimeout := jsOr p.idleTimeout 300000
    acquireTimeout := jsOr p.acquireTimeout 10000 }

/-- `PooledConnection`: `connected` is `client.isConnected()`. -/
structure PooledConnection where
  id : Nat
  createdAt : Int
  lastUsed : Int
  inUse : Bool
  connected : Bool
  deriving DecidableEq, Repr

/-- An entry of `waitingQueue`: the resolve/reject pair is identified by
`waiterId`, `timestamp` is the enqueue time. -/
structure WaitRequest where
  waiterId : Nat
  timestamp : Int
  deriving DecidableEq, Repr

/-- The mutable state of a `ConnectionPool` instance.  `cleanupTimerActive`
records whether the `setInterval` cleanup timer is running. -/
structure PoolState where
  connections : List PooledConnection
  waitingQueue : List WaitRequest
  isShuttingDown : Bool
  cleanupTimerActive : Bool
  deriving DecidableEq, Repr

/-- Pool state right after the constructor ran: empty map, empty queue,
not shutting down, cleanup timer started by `startCleanupTimer`. -/
def initialPoolState : PoolState :=
  { connections := []
    waitingQueue := []
    isShuttingDown := false
    cleanupTimerActive := true }

/-- The constructor: builds the defaulted config and the initial state.
It is a total function — the source performs no validation and never throws. -/
def constructPool (p : PartialPoolConfig) : ConnectionPoolConfig × PoolState :=
  (mkPoolConfig p, initialPoolState)

/-- `findAvailableConnection`: first connection (map insertion order) with
`!inUse && client.isConnected()`. -/
def findAvailableConnection (conns : List PooledConnection) :
    Option PooledConnection :=
  conns.find? (fun c => !c.inUse && c.connected)

/-- Mutation of the connection object returned by `findAvailableConnection`:
`inUse = true; lastUsed = now` on the first available connection. -/
def markAcquired (now : Int) : List PooledConnection → List PooledConnection
  | [] => []
  | c :: rest =>
    if !c.inUse && c.connected then
      { c with inUse := true, lastUsed := now } :: rest
    else
      c :: markAcquired now rest

/-- `createConnection`: `new SnowflakeClient` + `client.connect()`.  On
success the wrapper (with `inUse: false`) is inserted into the map; on
failure the error from `connect()` is rethrown. -/
def createConnection (now : Int) (freshId : Nat) (connectOk : Bool)
    (s : PoolState) : Except PoolError (PooledConnection × PoolState) :=
  if connectOk then
    let conn : PooledConnection :=
      { id := freshId, createdAt := now, lastUsed := now
        inUse := false, connected := true }
    .ok (conn, { s with connections := s.connections ++ [conn] })
  else
    .error .creationFailed

/-- What `acquire` hands back to its caller. -/
inductive AcquireResult where
  | acquired (clientId : Nat) : AcquireResult
  | enqueued (waiterId : Nat) : AcquireResult
  | failed (e : PoolError) : AcquireResult
  deriving DecidableEq, Repr

/-- `waitForConnection`: push a `WaitRequest` at the back of the queue; the
caller is now blocked on it. -/
def waitForConnection (now : Int) (waiterId : Nat) (s : PoolState) :
    AcquireResult × PoolState :=
  (.enqueued waiterId,
   { s with waitingQueue := s.waitingQueue ++ [⟨waiterId, now⟩] })

/-- `acquire`: throw if shutting down; else reuse the first available
connection; else, strictly under `maxConnections`, create a new one and mark
it in use (a creation failure is caught and the caller falls through to
waiting); else wait. -/
def acquire (cfg : ConnectionPoolConfig) (now : Int) (freshId waiterId : Nat)
    (connectOk : Bool) (s : PoolState) : AcquireResult × PoolState :=
  if s.isShuttingDown then
    (.failed .poolShuttingDown, s)
  else
    match findAvailableConnection s.connections with
    | some c => (.acquired c.id, { s with connections := markAcquired now s.connections })
    | none =>
      if (s.connections.length : Int) < cfg.maxConnections then
        match createConnection now freshId connectOk s with
        | .ok (conn, s1) =>
          -- `connection.inUse = true` on the freshly inserted wrapper
          let marked := s1.connections.map
            (fun c => if c.id = conn.id then { c with inUse := true } else c)
          (.acquired conn.id, { s1 with connections := marked })
        | .error _ => waitForConnection now waiterId s
      else
        waitForConnection now waiterId s

/-- `findConnectionByClient`: look the wrapper up by client identity. -/
def findConnectionByClient (conns : List PooledConnection) (clientId : Nat) :
    Option PooledConnection :=
  conns.find? (fun c => c.id == clientId)

/-- Mutation performed by `release` on the wrapper found by
`findConnectionByClient`: `inUse = false; lastUsed = now`. -/
def updateReleased (clientId : Nat) (now : Int) :
    List PooledConnection → List PooledConnection
  | [] => []
  | c :: rest =>
    if c.id = clientId then
      { c with inUse := false, lastUsed := now } :: rest
    else
      c :: updateReleased clientId now rest

/-- The loop body of `processWaitingQueue`: while the queue is non-empty and
an available connection exists, shift the front request, mark the connection
in use and resolve the request with that client.  Returns the final
connection list, the remaining queue, and the `(waiterId, clientId)`
resolutions in order. -/
def processQueue (now : Int) :
    List PooledConnection → List WaitRequest →
    List PooledConnection × List WaitRequest × List (Nat × Nat)
  | conns, [] => (conns, [], [])
  | conns, w :: rest =>
    match findAvailableConnection conns with
    | none => (conns, w :: rest, [])
    | some c =>
      let r := processQueue now (markAcquired now conns) rest
      (r.1, r.2.1, (w.waiterId, c.id) :: r.2.2)

/-- `processWaitingQueue` on the pool state. -/
def processWaitingQueue (now : Int) (s : PoolState) :
    PoolState × List (Nat × Nat) :=
  let r := processQueue now s.connections s.waitingQueue
  ({ s with connections := r.1, waitingQueue := r.2.1 }, r.2.2)

/-- `release`: unknown client → warn and return (state untouched, nobody
resolved); known client → clear `inUse`, stamp `lastUsed`, then service the
waiting queue.  The function is total: release never throws. -/
def release (now : Int) (clientId : Nat) (s : PoolState) :
    PoolState × List (Nat × Nat) :=
  match findConnectionByClient s.connections clientId with
  | none => (s, [])
  | some _ =>
    processWaitingQueue now
      { s with connections := updateReleased clientId now s.connections }

/-- JS strict equality `req.resolve === resolve` between the raw executor
`resolve` of the timing-out `acquire` call (identified by `waiterId`) and the
`resolve` stored in a queue entry.  `waitForConnection` stores the wrapper
closure `client => { clearTimeout(timeout); resolve(client); }`, a function
object distinct from the raw executor `resolve` of every call — its own
included — so this strict-equality test is false at every entry. -/
def resolveEqRaw (_req : WaitRequest) (_waiterId : Nat) : Bool := false

/-- The `setTimeout` callback installed by `waitForConnection`:
`findIndex(req => req.resolve === resolve)` over the queue, splice the entry
out when found, then reject with the acquire-timeout error naming
`poolConfig.acquireTimeout`.  Because every stored `resolve` is the wrapper
closure and not the raw executor `resolve` (see `resolveEqRaw`), `findIndex`
returns -1 (here: `length`, making the splice guard false). -/
def timeoutWaiter (cfg : ConnectionPoolConfig) (waiterId : Nat)
    (s : PoolState) : PoolState × PoolError :=
  let idx := s.waitingQueue.findIdx (fun req => resolveEqRaw req waiterId)
  let q :=
    if idx < s.waitingQueue.length then s.waitingQueue.eraseIdx idx
    else s.waitingQueue
  ({ s with waitingQueue := q }, .acquireTimeout cfg.acquireTimeout)

/-- `shutdown`: set the flag, clear the cleanup interval, reject every queued
request with the shutting-down error, disconnect every connection
(best-effort) and clear the map.  Returns the rejections handed to waiters. -/
def shutdown (s : PoolState) : PoolState × List (Nat × PoolError) :=
  ({ connections := []
     waitingQueue := []
     isShuttingDown := true
     cleanupTimerActive := false },
   s.waitingQueue.map (fun w => (w.waiterId, PoolError.poolShuttingDown)))

/-- The per-connection eviction test of `cleanupIdleConnections`.  `total` is
`this.connections.size` as read during the selection loop — the size of the
map before any connection of this tick has been removed. -/
def shouldClose (cfg : ConnectionPoolConfig) (total : Nat) (now : Int)
    (c : PooledConnection) : Bool :=
  !c.inUse && (now - c.lastUsed > cfg.idleTimeout) &&
    ((total : Int) > cfg.minConnections)

/-- `cleanupIdleConnections` (one Supervisor tick): no-op when shutting down;
otherwise select every connection passing `shouldClose` against the pre-tick
size, then disconnect and delete each selected connection. -/
def cleanupIdleConnections (cfg : ConnectionPoolConfig) (now : Int)
    (s : PoolState) : PoolState :=
  if s.isShuttingDown then s
  else
    let kept := s.connections.filter
      (fun c => !(shouldClose cfg s.connections.length now c))
    { s with connections := kept }

/-- Number of connections currently marked `inUse` (`getInUseConnectionCount`). -/
def inUseCount (s : PoolState) : Nat :=
  (s.connections.filter (fun c => c.inUse)).length

/-! ### `SnowflakeClient.execute` and its timeout race -/

/-- `private readonly defaultTimeout = 30000` in src/clients/snowflake-client.ts. -/
def defaultTimeout : Int := 30000

/-- `QueryOptions`: only the `timeout?` field matters to the deadline logic. -/
structure QueryOptions where
  timeout : Option Int
  deriving DecidableEq, Repr

/-- Behaviour of the underlying `executeQuery` promise: it settles after
`duration` milliseconds with success or an SQL error, or it never settles. -/
inductive OpBehavior where
  | settles (duration : Int) (ok : Bool) : OpBehavior
  | never : OpBehavior
  deriving DecidableEq, Repr

/-- How an `execute` call ends.
`connectionFailed` is `Error("Failed to establish connection to Snowflake")`;
`timedOut ms` is ``Error(`Query execution timeout after ${ms}ms`)``;
`sqlError` is ``Error(`SQL execution failed: ...`)``. -/
inductive ExecOutcome where
  | success : ExecOutcome
  | sqlError : ExecOutcome
  | timedOut (ms : Int) : ExecOutcome
  | connectionFailed : ExecOutcome
  deriving DecidableEq, Repr

/-- `Promise.race([executeQuery(...), createTimeoutPromise(timeout, ...)])`:
whichever settles first wins; the second component is the elapsed time at
which control returns to the caller. -/
def raceWithTimeout (timeout : Int) (op : OpBehavior) : ExecOutcome × Int :=
  match op with
  | .never => (.timedOut timeout, timeout)
  | .settles d ok =>
    if d ≤ timeout then ((if ok then .success else .sqlError), d)
    else (.timedOut timeout, timeout)

/-- `SnowflakeClient.execute(sql, options)`: after `connect()`, the effective
deadline is `options.timeout || this.defaultTimeout` and the query is raced
against `createTimeoutPromise` of that duration.  `connectOk` is whether the
initial `connect()` left a usable connection. -/
def execute (connectOk : Bool) (sql : String) (opts : QueryOptions)
    (op : OpBehavior) : ExecOutcome × Int :=
  if !connectOk then (.connectionFailed, 0)
  else
    let _ := sql
    raceWithTimeout (jsOr opts.timeout defaultTimeout) op

/-- The operation has not completed within `t` milliseconds. -/
def NotDoneWithin (t : Int) : OpBehavior → Prop
  | .never => True
  | .settles d _ => t < d

/-! ### Sequences of pool operations -/

/-- One externally triggered pool event: an `acquire` call (with the
environment choices it consumes) or a `release` call. -/
inductive PoolOp where
  | acq (now : Int) (freshId waiterId : Nat) (connectOk : Bool) : PoolOp
  | rel (now : Int) (clientId : Nat) : PoolOp
  deriving DecidableEq, Repr

/-- The state reached after one pool operation. -/
def stepPool (cfg : ConnectionPoolConfig) (s : PoolState) : PoolOp → PoolState
  | .acq now f w ok => (acquire cfg now f w ok s).2
  | .rel now cid => (release now cid s).1

/-- The state reached after a sequence of pool operations. -/
def runOps (cfg : ConnectionPoolConfig) (s : PoolState) :
    List PoolOp → PoolState
  | [] => s
  | op :: rest => runOps cfg (stepPool cfg s op) rest

/-! ### Helper lemmas -/

lemma markAcquired_length (now : Int) (conns : List PooledConnection) :
    (markAcquired now conns).length = conns.length := by
  induction conns with
  | nil => rfl
  | cons c rest ih =>
    simp only [markAcquired]
    split <;> simp [ih]

lemma updateReleased_length (cid : Nat) (now : Int)
    (conns : List PooledConnection) :
    (updateReleased cid now conns).length = conns.length := by
  induction conns with
  | nil => rfl
  | cons c rest ih =>
    simp only [updateReleased]
    split <;> simp [ih]

lemma processQueue_conns_length (now : Int) (q : List WaitRequest) :
    ∀ conns, (processQueue now conns q).1.length = conns.length := by
  induction q with
  | nil => intro conns; rfl
  | cons w rest ih =>
    intro conns
    simp only [processQueue]
    cases h : findAvailableConnection conns with
    | none => rfl
    | some c => simpa [markAcquired_length] using ih (markAcquired now conns)

lemma release_conns_length (now : Int) (cid : Nat) (s : PoolState) :
    (release now cid s).1.connections.length = s.connections.length := by
  unfold release
  cases h : findConnectionByClient s.connections cid with
  | none => rfl
  | some c =>
    simp [processWaitingQueue, processQueue_conns_length, updateReleased_length]

lemma acquire_conns_length (cfg : ConnectionPoolConfig) (now : Int)
    (freshId waiterId : Nat) (connectOk : Bool) (s : PoolState) :
    (acquire cfg now freshId waiterId connectOk s).2.connections.length =
        s.connections.length ∨
    ((acquire cfg now freshId waiterId connectOk s).2.connections.length =
        s.connections.length + 1 ∧
      (s.connections.length : Int) < cfg.maxConnections) := by
  unfold acquire
  by_cases hsd : s.isShuttingDown
  · simp [hsd]
  · simp only [hsd, if_false, Bool.false_eq_true]
    cases hav : findAvailableConnection s.connections with
    | some c => simp [markAcquired_length]
    | none =>
      simp only []
      by_cases hlt : (s.connections.length : Int) < cfg.maxConnections
      · cases connectOk with
        | true => right; simp [createConnection, hlt]
        | false => left; simp [createConnection, hlt, waitForConnection]
      · simp [hlt, waitForConnection]

lemma stepPool_card_le (cfg : ConnectionPoolConfig) (s : PoolState)
    (op : PoolOp) (h : (s.connections.length : Int) ≤ cfg.maxConnections) :
    ((stepPool cfg s op).connections.length : Int) ≤ cfg.maxConnections := by
  cases op with
  | acq now f w ok =>
    rcases acquire_conns_length cfg now f w ok s with he | ⟨he, hlt⟩ <;>
      simp only [stepPool, he] <;> push_cast <;> omega
  | rel now cid =>
    simpa only [stepPool, release_conns_length] using h

lemma runOps_card_le (cfg : ConnectionPoolConfig) (ops : List PoolOp) :
    ∀ s : PoolState, (s.connections.length : Int) ≤ cfg.maxConnections →
      ((runOps cfg s ops).connections.length : Int) ≤ cfg.maxConnections := by
  induction ops with
  | nil => intro s h; exact h
  | cons op rest ih =>
    intro s h
    exact ih (stepPool cfg s op) (stepPool_card_le cfg s op h)

lemma processQueue_fifo (now : Int) (q : List WaitRequest) :
    ∀ conns, ∃ k,
      (processQueue now conns q).2.2.map Prod.fst =
        (q.take k).map WaitRequest.waiterId ∧
      (processQueue now conns q).2.1 = q.drop k := by
  induction q with
  | nil => intro conns; exact ⟨0, rfl, rfl⟩
  | cons w rest ih =>
    intro conns
    simp only [processQueue]
    cases hav : findAvailableConnection conns with
    | none => exact ⟨0, rfl, rfl⟩
    | some c =>
      obtain ⟨k, h1, h2⟩ := ih (markAcquired now conns)
      refine ⟨k + 1, ?_, ?_⟩
      · simpa using h1
      · simpa using h2

lemma findIdx_resolveEqRaw (l : List WaitRequest) (waiterId : Nat) :
    l.findIdx (fun req => resolveEqRaw req waiterId) = l.length := by
  induction l with
  | nil => rfl
  | cons a tl ih => simp [List.findIdx_cons, resolveEqRaw, ih]

lemma findClient_none (conns : List PooledConnection) (cid : Nat)
    (h : ∀ c ∈ conns, c.id ≠ cid) :
    findConnectionByClient conns cid = none := by
  apply List.find?_eq_none.mpr
  intro x hx
  simp [h x hx]

lemma findClient_append (l : List PooledConnection) (c : PooledConnection)
    (r : List PooledConnection) (cid : Nat)
    (hl : ∀ d ∈ l, d.id ≠ cid) (hc : c.id = cid) :
    findConnectionByClient (l ++ c :: r) cid = some c := by
  induction l with
  | nil =>
    apply List.find?_cons_of_pos
    simp [hc]
  | cons a tl ih =>
    have ha : a.id ≠ cid := hl a (by simp)
    have htl := ih (fun d hd => hl d (by simp [hd]))
    unfold findConnectionByClient at htl ⊢
    rw [List.cons_append, List.find?_cons_of_neg _ (by simp [ha])]
    exact htl

lemma updateReleased_append (cid : Nat) (now : Int) :
    ∀ (l : List PooledConnection) (c : PooledConnection)
      (r : List PooledConnection),
      (∀ d ∈ l, d.id ≠ cid) → c.id = cid →
      updateReleased cid now (l ++ c :: r) =
        l ++ ({ c with inUse := false, lastUsed := now } :: r) := by
  intro l
  induction l with
  | nil => intro c r _ hc; simp [updateReleased, hc]
  | cons a tl ih =>
    intro c r hl hc
    have ha : a.id ≠ cid := hl a (by simp)
    have htl := ih c r (fun d hd => hl d (by simp [hd])) hc
    simp [updateReleased, ha, htl]

/-! ### Concrete pool exercising the idle-reclamation floor -/

/-- A pool configuration with `minConnections = 1` and `idleTimeout = 1000`. -/
def floorCfg : ConnectionPoolConfig :=
  { maxConnections := 10, minConnections := 1, connectionTimeout := 30000
    idleTimeout := 1000, acquireTimeout := 10000 }

/-- A pool holding three connections, none in use, all last used at time 0. -/
def floorState : PoolState :=
  { connections :=
      [ { id := 1, createdAt := 0, lastUsed := 0, inUse := false, connected := true }
      , { id := 2, createdAt := 0, lastUsed := 0, inUse := false, connected := true }
      , { id := 3, createdAt := 0, lastUsed := 0, inUse := false, connected := true } ]
    waitingQueue := []
    isShuttingDown := false
    cleanupTimerActive := true }

/-- C1: the Supervisor tick checks `connections.size > minConnections` against
the pre-tick size for every candidate, so one tick at time 2000 on
`floorState` (3 connections, all idle for 2000ms > 1000ms, floor 1) removes
all three connections and leaves the total at 0, strictly below
`minConnections`. -/
theorem cleanup_drops_below_min_floor :
    floorState.isShuttingDown = false ∧
    (floorState.connections.length : Int) > floorCfg.minConnections ∧
    (cleanupIdleConnections floorCfg 2000 floorState).connections = [] ∧
    (((cleanupIdleConnections floorCfg 2000 floorState).connections.length : Int) <
      floorCfg.minConnections) := by
  decide

/-- C2: along any sequence of `acquire`/`release` calls from a fresh pool,
the number of connections marked `inUse` and the total connection count never
exceed `maxConnections`; moreover `acquire` grows the connection set only
when the pre-call total is strictly below `maxConnections`, and a non-growing
`acquire` on a live pool either hands out an existing connection or enqueues
the caller. -/
theorem pool_capacity_invariant (cfg : ConnectionPoolConfig)
    (ops : List PoolOp) (hmax : 0 ≤ cfg.maxConnections) :
    ((inUseCount (runOps cfg initialPoolState ops) : Int) ≤ cfg.maxConnections) ∧
    (((runOps cfg initialPoolState ops).connections.length : Int) ≤
      cfg.maxConnections) ∧
    (∀ now freshId waiterId connectOk s,
      s.connections.length <
          (acquire cfg now freshId waiterId connectOk s).2.connections.length →
      (s.connections.length : Int) < cfg.maxConnections) ∧
    (∀ now freshId waiterId connectOk s,
      s.isShuttingDown = false →
      (acquire cfg now freshId waiterId connectOk s).2.connections.length =
          s.connections.length →
      ((∃ c ∈ s.connections,
          (acquire cfg now freshId waiterId connectOk s).1 =
            AcquireResult.acquired c.id) ∨
        (acquire cfg now freshId waiterId connectOk s).1 =
          AcquireResult.enqueued waiterId)) := by
  have hlen : ((runOps cfg initialPoolState ops).connections.length : Int) ≤
      cfg.maxConnections :=
    runOps_card_le cfg ops initialPoolState (by simpa [initialPoolState] using hmax)
  refine ⟨?_, hlen, ?_, ?_⟩
  · have h1 : inUseCount (runOps cfg initialPoolState ops) ≤
        (runOps cfg initialPoolState ops).connections.length :=
      List.length_filter_le _ _
    have h2 : (inUseCount (runOps cfg initialPoolState ops) : Int) ≤
        ((runOps cfg initialPoolState ops).connections.length : Int) := by
      exact_mod_cast h1
    exact le_trans h2 hlen
  · intro now f w ok s hgrow
    rcases acquire_conns_length cfg now f w ok s with he | ⟨he, hlt⟩
    · rw [he] at hgrow
      exact absurd hgrow (lt_irrefl _)
    · exact hlt
  · intro now f w ok s hsd hsame
    simp only [acquire, hsd, Bool.false_eq_true, if_false] at hsame ⊢
    cases hav : findAvailableConnection s.connections with
    | some c =>
      simp only [hav]
      exact Or.inl ⟨c, List.mem_of_find?_eq_some hav, rfl⟩
    | none =>
      simp only [hav] at hsame ⊢
      by_cases hlt : (s.connections.length : Int) < cfg.maxConnections
      · rw [if_pos hlt] at hsame ⊢
        cases ok with
        | true =>
          exfalso
          simp [createConnection] at hsame
        | false =>
          simp [createConnection, waitForConnection]
      · rw [if_neg hlt]
        simp [waitForConnection]

theorem pool_capacity_invariant_witness :
    (0 : Int) ≤ (⟨2, 1, 30000, 1000, 10000⟩ : ConnectionPoolConfig).maxConnections ∧
    (((inUseCount (runOps ⟨2, 1, 30000, 1000, 10000⟩ initialPoolState
        [.acq 0 1 100 true, .acq 1 2 101 true, .acq 2 3 102 true, .rel 3 1]) : Int) ≤
      (2 : Int)) ∧
     (((runOps ⟨2, 1, 30000, 1000, 10000⟩ initialPoolState
        [.acq 0 1 100 true, .acq 1 2 101 true, .acq 2 3 102 true,
         .rel 3 1]).connections.length : Int) ≤ (2 : Int)) ∧
     (∀ now freshId waiterId connectOk s,
       s.connections.length <
           (acquire ⟨2, 1, 30000, 1000, 10000⟩ now freshId waiterId connectOk
             s).2.connections.length →
       (s.connections.length : Int) < (2 : Int)) ∧
     (∀ now freshId waiterId connectOk s,
       s.isShuttingDown = false →
       (acquire ⟨2, 1, 30000, 1000, 10000⟩ now freshId waiterId connectOk
           s).2.connections.length = s.connections.length →
       ((∃ c ∈ s.connections,
           (acquire ⟨2, 1, 30000, 1000, 10000⟩ now freshId waiterId connectOk
             s).1 = AcquireResult.acquired c.id) ∨
         (acquire ⟨2, 1, 30000, 1000, 10000⟩ now freshId waiterId connectOk
           s).1 = AcquireResult.enqueued waiterId))) :=
  ⟨by decide,
   pool_capacity_invariant ⟨2, 1, 30000, 1000, 10000⟩
     [.acq 0 1 100 true, .acq 1 2 101 true, .acq 2 3 102 true, .rel 3 1]
     (by decide)⟩

/-- C5: after `shutdown`, the connection set is empty, the wait queue is
empty, the cleanup timer is stopped, every request that was queued has been
rejected with the shutting-down error, and any later `acquire` fails
immediately with that same error, leaving the state unchanged. -/
theorem shutdown_finality (s : PoolState) :
    (shutdown s).1.connections = [] ∧
    (shutdown s).1.waitingQueue = [] ∧
    (shutdown s).1.cleanupTimerActive = false ∧
    (shutdown s).2 =
      s.waitingQueue.map (fun w => (w.waiterId, PoolError.poolShuttingDown)) ∧
    ∀ cfg now freshId waiterId connectOk,
      acquire cfg now freshId waiterId connectOk (shutdown s).1 =
        (.failed .poolShuttingDown, (shutdown s).1) := by
  refine ⟨rfl, rfl, rfl, rfl, ?_⟩
  intro cfg now freshId waiterId connectOk
  simp [acquire, shutdown]

/-- C6: whenever the underlying operation has not settled within the
effective deadline `options.timeout || defaultTimeout`, `execute` fails with
the timeout error carrying that configured duration, and control returns to
the caller at the deadline rather than when the operation settles. -/
theorem execute_times_out_at_deadline (sql : String) (opts : QueryOptions)
    (op : OpBehavior) (h : NotDoneWithin (jsOr opts.timeout defaultTimeout) op) :
    execute true sql opts op =
      (.timedOut (jsOr opts.timeout defaultTimeout),
       jsOr opts.timeout defaultTimeout) := by
  cases op with
  | never => simp [execute, raceWithTimeout]
  | settles d ok =>
    simp only [NotDoneWithin] at h
    have hd : ¬ (d ≤ jsOr opts.timeout defaultTimeout) := not_le.mpr h
    simp [execute, raceWithTimeout, hd]

theorem execute_times_out_at_deadline_witness :
    NotDoneWithin (jsOr (some 100) defaultTimeout) OpBehavior.never ∧
    execute true "SELECT 1" ⟨some 100⟩ OpBehavior.never =
      (.timedOut (jsOr (some 100) defaultTimeout),
       jsOr (some 100) defaultTimeout) :=
  ⟨trivial, execute_times_out_at_deadline "SELECT 1" ⟨some 100⟩ .never trivial⟩

/-- C10: a call with no `timeout` option, or with `timeout: 0`, is raced
against the default 30000ms deadline, so it times out after 30 seconds when
the underlying operation has not completed by then. -/
theorem execute_default_deadline (sql : String) (opts : QueryOptions)
    (op : OpBehavior) (hopt : opts.timeout = none ∨ opts.timeout = some 0)
    (h : NotDoneWithin 30000 op) :
    jsOr opts.timeout defaultTimeout = 30000 ∧
    execute true sql opts op = (.timedOut 30000, 30000) := by
  have he : jsOr opts.timeout defaultTimeout = 30000 := by
    rcases hopt with h0 | h0 <;> simp [jsOr, h0, defaultTimeout]
  refine ⟨he, ?_⟩
  cases op with
  | never => simp [execute, raceWithTimeout, he]
  | settles d ok =>
    simp only [NotDoneWithin] at h
    have hd : ¬ (d ≤ (30000 : Int)) := not_le.mpr h
    simp [execute, raceWithTimeout, he, hd]

theorem execute_default_deadline_witness :
    ((none : Option Int) = none ∨ (none : Option Int) = some 0) ∧
    (jsOr none defaultTimeout = 30000 ∧
     execute true "SELECT 1" ⟨none⟩ OpBehavior.never = (.timedOut 30000, 30000)) :=
  ⟨Or.inl rfl,
   execute_default_deadline "SELECT 1" ⟨none⟩ .never (Or.inl rfl) trivial⟩

/-- C7 counterexample: the constructor performs no validation — passing
`maxConnections: 1, minConnections: 5` constructs a pool whose stored
configuration has `maxConnections < minConnections` instead of being
rejected. -/
theorem constructor_accepts_max_below_min :
    (constructPool ⟨some 1, some 5, none, none, none⟩).1.maxConnections = 1 ∧
    (constructPool ⟨some 1, some 5, none, none, none⟩).1.minConnections = 5 ∧
    (constructPool ⟨some 1, some 5, none, none, none⟩).1.maxConnections <
      (constructPool ⟨some 1, some 5, none, none, none⟩).1.minConnections := by
  decide

/-- C7 amended: construction always succeeds; each absent (or zero, hence
falsy) field is replaced by its default — `10, 2, 30000, 300000, 10000` — and
any non-zero supplied values are stored unchecked, with no bound between
`maxConnections` and `minConnections` enforced. -/
theorem constructor_defaults_without_validation (m n : Int)
    (hm : m ≠ 0) (hn : n ≠ 0) :
    (constructPool ⟨none, none, none, none, none⟩).1 =
      ⟨10, 2, 30000, 300000, 10000⟩ ∧
    (constructPool ⟨some m, some n, none, none, none⟩).1.maxConnections = m ∧
    (constructPool ⟨some m, some n, none, none, none⟩).1.minConnections = n ∧
    (constructPool ⟨some m, some n, none, none, none⟩).2 = initialPoolState := by
  refine ⟨rfl, ?_, ?_, rfl⟩ <;> simp [constructPool, mkPoolConfig, jsOr, hm, hn]

theorem constructor_defaults_without_validation_witness :
    (1 : Int) ≠ 0 ∧ (5 : Int) ≠ 0 ∧
    ((constructPool ⟨none, none, none, none, none⟩).1 =
      ⟨10, 2, 30000, 300000, 10000⟩ ∧
     (constructPool ⟨some 1, some 5, none, none, none⟩).1.maxConnections = 1 ∧
     (constructPool ⟨some 1, some 5, none, none, none⟩).1.minConnections = 5 ∧
     (constructPool ⟨some 1, some 5, none, none, none⟩).2 = initialPoolState) :=
  ⟨by decide, by decide,
   constructor_defaults_without_validation 1 5 (by decide) (by decide)⟩

/-- C3: the wait queue is serviced in strict FIFO order — every run of
`processWaitingQueue` (including the one triggered by `release`) resolves
exactly the `k` oldest queued requests, in arrival order, and leaves the
queue's remaining suffix intact, so no later waiter is ever resolved while an
earlier one is still queued. -/
theorem wait_queue_fifo (now : Int) (s : PoolState) :
    (∃ k, (processWaitingQueue now s).2.map Prod.fst =
            (s.waitingQueue.take k).map WaitRequest.waiterId ∧
          (processWaitingQueue now s).1.waitingQueue = s.waitingQueue.drop k) ∧
    (∀ clientId, ∃ k,
          (release now clientId s).2.map Prod.fst =
            (s.waitingQueue.take k).map WaitRequest.waiterId ∧
          (release now clientId s).1.waitingQueue = s.waitingQueue.drop k) := by
  constructor
  · obtain ⟨k, h1, h2⟩ := processQueue_fifo now s.waitingQueue s.connections
    exact ⟨k, h1, h2⟩
  · intro clientId
    cases hfind : findConnectionByClient s.connections clientId with
    | none => exact ⟨0, by simp [release, hfind], by simp [release, hfind]⟩
    | some c =>
      obtain ⟨k, h1, h2⟩ :=
        processQueue_fifo now s.waitingQueue
          (updateReleased clientId now s.connections)
      exact ⟨k, by simpa [release, hfind] using h1,
             by simpa [release, hfind] using h2⟩

/-- C4: the acquire-timeout callback does reject its caller with the timeout
error naming `poolConfig.acquireTimeout`, but it never removes the timed-out
`WaitRequest` from the queue: `findIndex` compares the raw executor `resolve`
with the stored wrapper closures, finds nothing, and the whole pool state is
left unchanged — traced on a three-waiter queue where waiter 2 times out and
remains queued. -/
theorem acquire_timeout_leaves_waiter_queued :
    (∀ cfg waiterId s,
      (timeoutWaiter cfg waiterId s).1 = s ∧
      (timeoutWaiter cfg waiterId s).2 =
        PoolError.acquireTimeout cfg.acquireTimeout) ∧
    (timeoutWaiter ⟨10, 2, 30000, 300000, 5000⟩ 2
        ⟨[], [⟨1, 0⟩, ⟨2, 0⟩, ⟨3, 0⟩], false, true⟩).1.waitingQueue =
      [⟨1, 0⟩, ⟨2, 0⟩, ⟨3, 0⟩] ∧
    (⟨2, 0⟩ : WaitRequest) ∈
      (timeoutWaiter ⟨10, 2, 30000, 300000, 5000⟩ 2
        ⟨[], [⟨1, 0⟩, ⟨2, 0⟩, ⟨3, 0⟩], false, true⟩).1.waitingQueue ∧
    (timeoutWaiter ⟨10, 2, 30000, 300000, 5000⟩ 2
        ⟨[], [⟨1, 0⟩, ⟨2, 0⟩, ⟨3, 0⟩], false, true⟩).2 =
      PoolError.acquireTimeout 5000 := by
  refine ⟨?_, by decide, by decide, by decide⟩
  intro cfg waiterId s
  constructor
  · simp only [timeoutWaiter]
    rw [findIdx_resolveEqRaw, if_neg (lt_irrefl _)]
  · rfl

/-- C8: on a live pool with no available connection, an `acquire` whose
creation attempt fails is enqueued as a waiter — the queue gains exactly this
caller at the back, the connection set is unchanged, and the call never
returns the creation failure (or any other error) to the caller. -/
theorem creation_failure_not_propagated (cfg : ConnectionPoolConfig)
    (now : Int) (freshId waiterId : Nat) (s : PoolState)
    (hsd : s.isShuttingDown = false)
    (hav : findAvailableConnection s.connections = none) :
    (acquire cfg now freshId waiterId false s).1 =
      AcquireResult.enqueued waiterId ∧
    (acquire cfg now freshId waiterId false s).2.waitingQueue =
      s.waitingQueue ++ [⟨waiterId, now⟩] ∧
    (acquire cfg now freshId waiterId false s).2.connections = s.connections ∧
    ∀ e : PoolError,
      (acquire cfg now freshId waiterId false s).1 ≠ AcquireResult.failed e := by
  simp only [acquire, hsd, Bool.false_eq_true, if_false, hav]
  by_cases hlt : (s.connections.length : Int) < cfg.maxConnections
  · rw [if_pos hlt]
    simp [createConnection, waitForConnection]
  · rw [if_neg hlt]
    simp [waitForConnection]

theorem creation_failure_not_propagated_witness :
    initialPoolState.isShuttingDown = false ∧
    findAvailableConnection initialPoolState.connections = none ∧
    ((acquire ⟨10, 2, 30000, 300000, 10000⟩ 5 7 42 false initialPoolState).1 =
      AcquireResult.enqueued 42 ∧
     (acquire ⟨10, 2, 30000, 300000, 10000⟩ 5 7 42 false
        initialPoolState).2.waitingQueue =
      initialPoolState.waitingQueue ++ [⟨42, 5⟩] ∧
     (acquire ⟨10, 2, 30000, 300000, 10000⟩ 5 7 42 false
        initialPoolState).2.connections = initialPoolState.connections ∧
     ∀ e : PoolError,
       (acquire ⟨10, 2, 30000, 300000, 10000⟩ 5 7 42 false
         initialPoolState).1 ≠ AcquireResult.failed e) :=
  ⟨rfl, rfl,
   creation_failure_not_propagated ⟨10, 2, 30000, 300000, 10000⟩ 5 7 42
     initialPoolState rfl rfl⟩

/-- A one-connection pool whose client does not belong to it (used to witness
the unknown-client half of the release frame property). -/
def relStateA : PoolState :=
  { connections := [⟨1, 0, 0, true, true⟩]
    waitingQueue := []
    isShuttingDown := false
    cleanupTimerActive := true }

/-- A two-connection pool with one waiter (used to witness the known-client
half of the release frame property). -/
def relStateB : PoolState :=
  { connections := [⟨1, 0, 0, false, true⟩, ⟨2, 0, 0, true, true⟩]
    waitingQueue := [⟨7, 0⟩]
    isShuttingDown := false
    cleanupTimerActive := true }

/-- C9: `release` never throws (it is a total function), a release of a
client that belongs to no pooled connection returns the exact same state with
nobody resolved, and a release of a known client changes only that
connection's `inUse` and `lastUsed` fields — every other connection, the
queue and the flags are untouched — before the waiting queue is serviced. -/
theorem release_frame (now : Int) (clientId : Nat) (s : PoolState) :
    ((∀ c ∈ s.connections, c.id ≠ clientId) →
      release now clientId s = (s, [])) ∧
    (∀ l c r, s.connections = l ++ c :: r → c.id = clientId →
      (∀ d ∈ l, d.id ≠ clientId) →
      release now clientId s =
        processWaitingQueue now
          { s with connections :=
              l ++ ({ c with inUse := false, lastUsed := now } :: r) }) := by
  constructor
  · intro h
    simp [release, findClient_none s.connections clientId h]
  · intro l c r hq hc hl
    have hfind : findConnectionByClient s.connections clientId = some c := by
      rw [hq]; exact findClient_append l c r clientId hl hc
    have hupd : updateReleased clientId now s.connections =
        l ++ ({ c with inUse := false, lastUsed := now } :: r) := by
      rw [hq]; exact updateReleased_append clientId now l c r hl hc
    simp [release, hfind, hupd]

theorem release_frame_witness :
    release 5 9 relStateA = (relStateA, []) ∧
    release 5 2 relStateB =
      processWaitingQueue 5
        { relStateB with connections :=
            [⟨1, 0, 0, false, true⟩] ++
              ({ (⟨2, 0, 0, true, true⟩ : PooledConnection) with
                  inUse := false, lastUsed := 5 } :: []) } :=
  ⟨(release_frame 5 9 relStateA).1 (by decide),
   (release_frame 5 2 relStateB).2 [⟨1, 0, 0, false, true⟩]
     ⟨2, 0, 0, true, true⟩ [] rfl rfl (by decide)⟩

end SnowflakeMCP
